import Mathlib

/-!
Shallow embedding of `src/app.py` (YouTube video summarizer).

Strings are modelled as `String` where only whole-string equality matters
(language labels, error messages, prompt text) and as `List Char` where the
code scans characters (the URL identifier extractor, transcript truncation).
Python exceptions become `Option`/`Except` values: a `try` block that can fail
is a function returning `none`/`.error`, and a bare `except: pass` fallthrough
is the `none` branch of a `match`.
-/

/-! § URL Identifier Extractor — `extract_video_id`, src/app.py lines 37-49. -/

/-- One character of the regex class `[0-9A-Za-z_-]` used by every pattern's
capture group in `extract_video_id`. -/
def isIdChar (c : Char) : Bool :=
  ('0' ≤ c && c ≤ '9') || ('A' ≤ c && c ≤ 'Z') || ('a' ≤ c && c ≤ 'z') ||
    c == '-' || c == '_'

/-- The capture group `([0-9A-Za-z_-]{11})`: succeed exactly when the next 11
characters exist and all lie in the class, returning those 11 characters. -/
def grabId (cs : List Char) : Option (List Char) :=
  if 11 ≤ cs.length && (cs.take 11).all isIdChar then some (cs.take 11) else none

/-- Pattern 1, `(?:v=|\/)([0-9A-Za-z_-]{11}).*`, tried at one start position.
The alternation tries `v=` first, then `/`; the trailing `.*` always matches
and captures nothing, so it is omitted. -/
def tryP1At : List Char → Option (List Char)
  | 'v' :: '=' :: rest => grabId rest
  | '/' :: rest => grabId rest
  | _ => none

/-- Pattern 2, `(?:embed\/)([0-9A-Za-z_-]{11})`, tried at one start position. -/
def tryP2At : List Char → Option (List Char)
  | 'e' :: 'm' :: 'b' :: 'e' :: 'd' :: '/' :: rest => grabId rest
  | _ => none

/-- Pattern 3, `(?:watch\?v=)([0-9A-Za-z_-]{11})`, tried at one start position. -/
def tryP3At : List Char → Option (List Char)
  | 'w' :: 'a' :: 't' :: 'c' :: 'h' :: '?' :: 'v' :: '=' :: rest => grabId rest
  | _ => none

/-- Pattern 4, `(?:youtu\.be\/)([0-9A-Za-z_-]{11})`, tried at one start position. -/
def tryP4At : List Char → Option (List Char)
  | 'y' :: 'o' :: 'u' :: 't' :: 'u' :: '.' :: 'b' :: 'e' :: '/' :: rest => grabId rest
  | _ => none

/-- `re.search`: try the pattern at every start position, leftmost match wins. -/
def searchWith (tryAt : List Char → Option (List Char)) : List Char → Option (List Char)
  | [] => tryAt []
  | c :: cs =>
    match tryAt (c :: cs) with
    | some g => some g
    | none => searchWith tryAt cs

/-- `extract_video_id` (src/app.py lines 37-49): loop over the four patterns in
order, returning the capture group of the first pattern that matches anywhere
in the input; `None` when no pattern matches. -/
def extract_video_id (url : List Char) : Option (List Char) :=
  match searchWith tryP1At url with
  | some g => some g
  | none =>
    match searchWith tryP2At url with
    | some g => some g
    | none =>
      match searchWith tryP3At url with
      | some g => some g
      | none => searchWith tryP4At url

/-- Long-form watch link carrying identifier `id`. -/
def longFormURL (id : List Char) : List Char :=
  "https://www.youtube.com/watch?v=".data ++ id

/-- Embed link carrying identifier `id`. -/
def embedURL (id : List Char) : List Char :=
  "https://www.youtube.com/embed/".data ++ id

/-- Explicit `watch?v=` form (no scheme) carrying identifier `id`. -/
def watchParamURL (id : List Char) : List Char :=
  "www.youtube.com/watch?v=".data ++ id

/-- Short-link domain form carrying identifier `id`. -/
def shortLinkURL (id : List Char) : List Char :=
  "https://youtu.be/".data ++ id

example : extract_video_id (longFormURL "dQw4w9WgXcQ".data) = some "dQw4w9WgXcQ".data := by
  decide

example : extract_video_id (embedURL "dQw4w9WgXcQ".data) = some "dQw4w9WgXcQ".data := by
  decide

example : extract_video_id (watchParamURL "dQw4w9WgXcQ".data) = some "dQw4w9WgXcQ".data := by
  decide

example : extract_video_id (shortLinkURL "dQw4w9WgXcQ".data) = some "dQw4w9WgXcQ".data := by
  decide

example : extract_video_id "hello there".data = none := by decide

/-! § Transcript Resolver — `get_transcript`, src/app.py lines 51-89.

The `youtube_transcript_api` collaborator is not part of this repository, so
its track list and lookup methods are modelled from the spec (§6 "Transcript
source collaborator", §4.2 selection tiers). -/

/-- Modelled from the spec: one available transcript track of the transcript
source — a language label, a language code, a provenance flag (manually
authored vs. auto-generated), the text its fetch would yield, and whether that
fetch succeeds (a failing fetch raises, which the code's tier-local `except`
swallows). -/
structure Track where
  language : String
  languageCode : String
  isGenerated : Bool
  text : String
  fetchOk : Bool
deriving DecidableEq

/-- Modelled from the spec: `transcript.fetch()`, which yields the track's
text or raises (modelled as `none`). -/
def fetchTrack (t : Track) : Option String :=
  if t.fetchOk then some t.text else none

/-- Modelled from the spec: `transcript_list.find_transcript([code])` — an
English-language track "if one exists in any form" (tier 1), i.e. a track with
the given language code, manually created ones preferred, raising (modelled as
`none`) when no track has that code. -/
def find_transcript (code : String) (ts : List Track) : Option Track :=
  match ts.find? (fun t => !t.isGenerated && t.languageCode == code) with
  | some t => some t
  | none => ts.find? (fun t => t.isGenerated && t.languageCode == code)

/-- Modelled from the spec: `transcript_list.find_manually_created_transcript()`
— "any manually authored (human-captioned) track in any language" (tier 2),
raising (modelled as `none`) when every track is auto-generated. -/
def find_manually_created_transcript (ts : List Track) : Option Track :=
  ts.find? (fun t => !t.isGenerated)

/-- Modelled from the spec: `transcript_list.find_generated_transcript([code])`
— an auto-generated track with the given language code (tier 3), raising
(modelled as `none`) when there is none. -/
def find_generated_transcript (code : String) (ts : List Track) : Option Track :=
  ts.find? (fun t => t.isGenerated && t.languageCode == code)

/-- Tier 1 (src/app.py lines 56-60): `find_transcript(['en'])`, fetch, label
`"English"`; any failure inside the `try` is swallowed. -/
def tier1 (ts : List Track) : Option (String × String) :=
  (find_transcript "en" ts).bind fun t => (fetchTrack t).map fun txt => (txt, "English")

/-- Tier 2 (src/app.py lines 62-66): `find_manually_created_transcript()`,
fetch, label with the track's own language; any failure is swallowed. -/
def tier2 (ts : List Track) : Option (String × String) :=
  (find_manually_created_transcript ts).bind fun t =>
    (fetchTrack t).map fun txt => (txt, t.language)

/-- Tier 3 (src/app.py lines 68-72): `find_generated_transcript(['en'])`,
fetch, label `"English (auto-generated)"`; any failure is swallowed. -/
def tier3 (ts : List Track) : Option (String × String) :=
  (find_generated_transcript "en" ts).bind fun t =>
    (fetchTrack t).map fun txt => (txt, "English (auto-generated)")

/-- Tier 4 (src/app.py lines 74-78): iterate the track list in source order;
for each track try to fetch, `continue` past a failing fetch, and return the
first fetched text with the track's own language label. -/
def tier4 : List Track → Option (String × String)
  | [] => none
  | t :: rest =>
    match fetchTrack t with
    | some txt => some (txt, t.language)
    | none => tier4 rest

/-- `get_transcript` given a successfully listed track set (src/app.py lines
51-80): the four tiers in order, first success wins; `(None, None)` — modelled
as `none` — when every tier fails. -/
def get_transcript (ts : List Track) : Option (String × String) :=
  match tier1 ts with
  | some r => some r
  | none =>
    match tier2 ts with
    | some r => some r
    | none =>
      match tier3 ts with
      | some r => some r
      | none => tier4 ts

/-- The analyze-button handler's check on the resolver's result (src/app.py
lines 130-133): a `(None, None)` result is reported as "No transcript
available" and the request halts; a resolved track produces no such report. -/
def transcriptFailureMessage (r : Option (String × String)) : Option String :=
  match r with
  | none => some "❌ No transcript available for this video."
  | some _ => none

/-- The ways `api.list(video_id)` can fail, one constructor per `except`
clause of src/app.py lines 82-89. -/
inductive ListError where
  | transcriptsDisabled
  | noTranscriptFound
  | videoUnavailable
  | genericError (cause : String)
deriving DecidableEq

/-- `get_transcript` including its outer `try`/`except` (src/app.py lines
82-89): a listing failure is re-raised as a single exception with a
descriptive message; a successful listing runs the tier chain. -/
def get_transcript_result (r : Except ListError (List Track)) :
    Except String (Option (String × String)) :=
  match r with
  | .ok ts => .ok (get_transcript ts)
  | .error .transcriptsDisabled => .error "Transcripts are disabled for this video"
  | .error .noTranscriptFound => .error "No transcripts found for this video"
  | .error .videoUnavailable => .error "Video is unavailable or private"
  | .error (.genericError cause) => .error ("Error fetching transcript: " ++ cause)

/-! § Prompt Composer — src/app.py lines 148-165. -/

/-- The four values of the summary-type selector (src/app.py lines 103-106). -/
inductive SummaryType where
  | comprehensive
  | keyPoints
  | quickOverview
  | detailedAnalysis
deriving DecidableEq

/-- The `summary_instructions` dict (src/app.py lines 148-153), as the lookup
`summary_instructions[summary_type]`. -/
def summary_instructions : SummaryType → String
  | .comprehensive =>
    "Provide a detailed, comprehensive summary covering all major topics and subtopics."
  | .keyPoints =>
    "Extract and list the key points and main takeaways in bullet format."
  | .quickOverview =>
    "Provide a brief, concise overview in 3-4 sentences."
  | .detailedAnalysis =>
    "Provide an in-depth analysis including themes, arguments, and insights."

/-- `MAX_CHARS` (src/app.py line 155). -/
def MAX_CHARS : Nat := 30000

/-- The truncation step (src/app.py lines 155-158): when the transcript text
has more than `MAX_CHARS` characters it is replaced by `text[:MAX_CHARS]` and
a user-visible warning is shown (the `Bool` flag); otherwise the text passes
through unchanged with no warning. -/
def truncateTranscript (text : String) : String × Bool :=
  if MAX_CHARS < text.length then (⟨text.data.take MAX_CHARS⟩, true) else (text, false)

/-- The prompt f-string (src/app.py lines 160-165), with the Python truthiness
test `user_query if user_query else "None"` rendered as an emptiness test. -/
def buildPrompt (summary_type : SummaryType) (user_query language text : String) : String :=
  "You are an expert video content analyst. \n**Task:** " ++
    summary_instructions summary_type ++
    "\n**Additional User Instructions:** " ++
    (if user_query = "" then "None" else user_query) ++
    "\n**Video Transcript (Language: " ++ language ++ "):**\n" ++ text ++
    "\nPlease provide a well-structured response with clear sections and formatting."

/-- The persona preamble of the prompt, as the spec names it. -/
def personaPreamble : String := "You are an expert video content analyst. "

/-- The header preceding the task instruction in the prompt. -/
def taskHeader : String := "\n**Task:** "

/-- The header preceding the user instructions in the prompt. -/
def userInstrHeader : String := "\n**Additional User Instructions:** "

/-- The text between the user instructions and the language label. -/
def langHeaderL : String := "\n**Video Transcript (Language: "

/-- The text between the language label and the transcript text. -/
def langHeaderR : String := "):**\n"

/-- The closing formatting directive of the prompt. -/
def closingDirective : String :=
  "\nPlease provide a well-structured response with clear sections and formatting."

/-! § Helper lemmas about the resolver. -/

/-- A track returned by `find_transcript code` is in the list and has the
requested language code. -/
lemma find_transcript_code (code : String) (ts : List Track) (t : Track)
    (h : find_transcript code ts = some t) : t ∈ ts ∧ t.languageCode = code := by
  unfold find_transcript at h
  cases hm : ts.find? (fun t => !t.isGenerated && t.languageCode == code) with
  | some t₁ =>
    rw [hm] at h
    cases h
    have hp := List.find?_some hm
    simp only [Bool.and_eq_true, beq_iff_eq] at hp
    exact ⟨List.mem_of_find?_eq_some hm, hp.2⟩
  | none =>
    rw [hm] at h
    have hp := List.find?_some h
    simp only [Bool.and_eq_true, beq_iff_eq] at hp
    exact ⟨List.mem_of_find?_eq_some h, hp.2⟩

/-- When the list holds some track with the requested language code,
`find_transcript` succeeds. -/
lemma find_transcript_isSome (code : String) (ts : List Track)
    (h : ∃ t ∈ ts, t.languageCode = code) : ∃ t, find_transcript code ts = some t := by
  unfold find_transcript
  cases hm : ts.find? (fun t => !t.isGenerated && t.languageCode == code) with
  | some t₁ => exact ⟨t₁, rfl⟩
  | none =>
    obtain ⟨t, htmem, htcode⟩ := h
    have hgen : t.isGenerated = true := by
      have hnone := List.find?_eq_none.mp hm t htmem
      simp only [Bool.and_eq_true, Bool.not_eq_true', beq_iff_eq, not_and] at hnone
      cases hg : t.isGenerated with
      | true => rfl
      | false => exact absurd htcode (hnone hg)
    have hs : (ts.find? (fun t => t.isGenerated && t.languageCode == code)).isSome :=
      List.find?_isSome.mpr ⟨t, htmem, by simp [hgen, htcode]⟩
    obtain ⟨t', ht'⟩ := Option.isSome_iff_exists.mp hs
    exact ⟨t', by simp [ht']⟩

/-- When tier 1 succeeds, `get_transcript` returns its result. -/
lemma get_transcript_of_tier1 (ts : List Track) (r : String × String)
    (h : tier1 ts = some r) : get_transcript ts = some r := by
  unfold get_transcript
  rw [h]

/-! § Claim theorems. -/

/-- C1: a track set holding an English-language entry and a manually authored
non-English entry resolves, under fetch success, to an English track's text
labeled "English" — tier 1 wins over tier 2. -/
theorem c1_tier1_beats_tier2 (ts : List Track)
    (hfetch : ∀ t ∈ ts, t.fetchOk = true)
    (hen : ∃ t ∈ ts, t.languageCode = "en")
    (_hman : ∃ t ∈ ts, t.isGenerated = false ∧ t.languageCode ≠ "en") :
    ∃ t ∈ ts, t.languageCode = "en" ∧ get_transcript ts = some (t.text, "English") := by
  obtain ⟨t₀, hsome⟩ := find_transcript_isSome "en" ts hen
  obtain ⟨hmem, hcode⟩ := find_transcript_code "en" ts t₀ hsome
  have htier1 : tier1 ts = some (t₀.text, "English") := by
    unfold tier1
    rw [hsome]
    simp [fetchTrack, hfetch t₀ hmem]
  exact ⟨t₀, hmem, hcode, get_transcript_of_tier1 ts _ htier1⟩

/-- C1 witness: a two-track set, English plus manually authored French. -/
theorem c1_witness :
    ∃ t ∈ [(⟨"English", "en", false, "hello world", true⟩ : Track),
           ⟨"French", "fr", false, "bonjour", true⟩],
      t.languageCode = "en" ∧
      get_transcript [⟨"English", "en", false, "hello world", true⟩,
                      ⟨"French", "fr", false, "bonjour", true⟩] =
        some (t.text, "English") :=
  c1_tier1_beats_tier2 _ (by decide) (by decide) (by decide)

/-- C2: a track set whose only entry is a manually authored French track
resolves, under fetch success, to that track's text labeled "French". -/
theorem c2_tier2_french (t : Track) (hgen : t.isGenerated = false)
    (hcode : t.languageCode = "fr") (hlang : t.language = "French")
    (hfetch : t.fetchOk = true) :
    get_transcript [t] = some (t.text, "French") := by
  simp [get_transcript, tier1, tier2, find_transcript, find_manually_created_transcript,
    fetchTrack, List.find?, hgen, hcode, hlang, hfetch]

/-- C2 witness: the singleton manually authored French track. -/
theorem c2_witness :
    get_transcript [(⟨"French", "fr", false, "bonjour", true⟩ : Track)] =
      some ("bonjour", "French") :=
  c2_tier2_french ⟨"French", "fr", false, "bonjour", true⟩ rfl rfl rfl rfl

/-- A singleton auto-generated English track, used to settle C3. -/
def autoEnTrack : Track := ⟨"English", "en", true, "hi", true⟩

/-- C3 counterexample: on a track set whose only entry is an auto-generated
English track, `get_transcript` labels the result "English" (tier 1, which
matches English tracks in any form), not "English (auto-generated)". -/
theorem c3_counterexample :
    get_transcript [autoEnTrack] = some ("hi", "English") ∧
    get_transcript [autoEnTrack] ≠ some (autoEnTrack.text, "English (auto-generated)") := by
  decide

/-- C3 amended: a track set whose only entry is an auto-generated English
track resolves, under fetch success, to that track's text labeled "English"
(tier 1 catches English tracks in any form, so tier 3 is never reached). -/
theorem c3_auto_english_label (t : Track) (hgen : t.isGenerated = true)
    (hcode : t.languageCode = "en") (hfetch : t.fetchOk = true) :
    get_transcript [t] = some (t.text, "English") := by
  simp [get_transcript, tier1, find_transcript, fetchTrack, List.find?, hgen, hcode, hfetch]

/-- C3 amended witness: the singleton auto-generated English track. -/
theorem c3_witness : get_transcript [autoEnTrack] = some (autoEnTrack.text, "English") :=
  c3_auto_english_label autoEnTrack rfl rfl rfl

/-- C4: a failing tier never terminates resolution — when tiers up to k fail,
`get_transcript` is exactly the chain of the remaining tiers; a successful
resolution always comes from one of the four tiers; and inside tier 4 a
failing fetch falls through to the rest of the enumeration. -/
theorem c4_tier_fallthrough (ts : List Track) :
    (tier1 ts = none → get_transcript ts = (tier2 ts <|> tier3 ts <|> tier4 ts)) ∧
    (tier1 ts = none → tier2 ts = none → get_transcript ts = (tier3 ts <|> tier4 ts)) ∧
    (tier1 ts = none → tier2 ts = none → tier3 ts = none → get_transcript ts = tier4 ts) ∧
    (∀ r, get_transcript ts = some r →
      tier1 ts = some r ∨ tier2 ts = some r ∨ tier3 ts = some r ∨ tier4 ts = some r) ∧
    (∀ t rest, fetchTrack t = none → tier4 (t :: rest) = tier4 rest) := by
  refine ⟨?_, ?_, ?_, ?_, ?_⟩
  · intro h1
    unfold get_transcript
    rw [h1]
    cases h2 : tier2 ts <;> cases h3 : tier3 ts <;> simp
  · intro h1 h2
    unfold get_transcript
    rw [h1, h2]
    cases h3 : tier3 ts <;> simp
  · intro h1 h2 h3
    unfold get_transcript
    rw [h1, h2, h3]
  · intro r h
    unfold get_transcript at h
    cases h1 : tier1 ts with
    | some r₁ => rw [h1] at h; exact Or.inl h
    | none =>
      rw [h1] at h
      cases h2 : tier2 ts with
      | some r₂ => rw [h2] at h; exact Or.inr (Or.inl h)
      | none =>
        rw [h2] at h
        cases h3 : tier3 ts with
        | some r₃ => rw [h3] at h; exact Or.inr (Or.inr (Or.inl h))
        | none => rw [h3] at h; exact Or.inr (Or.inr (Or.inr h))
  · intro t rest hf
    simp only [tier4, hf]

/-- C4 witness: tiers 1-3 all fail on a singleton auto-generated French
track, and resolution still reaches tier 4. -/
theorem c4_witness :
    get_transcript [(⟨"French", "fr", true, "salut", true⟩ : Track)] =
      tier4 [⟨"French", "fr", true, "salut", true⟩] :=
  (c4_tier_fallthrough [⟨"French", "fr", true, "salut", true⟩]).2.2.1
    (by decide) (by decide) (by decide)

/-- C5: the empty track set makes every tier fail, `get_transcript` returns
no track, and the analyze handler reports "No transcript available". -/
theorem c5_empty_track_set :
    get_transcript ([] : List Track) = none ∧
    transcriptFailureMessage (get_transcript ([] : List Track)) =
      some "❌ No transcript available for this video." := by
  decide

/-- C9: each listing failure of the transcript source maps to exactly one
reported failure with its descriptive message — the four classes are
distinguished and the generic class carries the underlying cause. -/
theorem c9_failure_classification :
    get_transcript_result (.error .transcriptsDisabled) =
      .error "Transcripts are disabled for this video" ∧
    get_transcript_result (.error .noTranscriptFound) =
      .error "No transcripts found for this video" ∧
    get_transcript_result (.error .videoUnavailable) =
      .error "Video is unavailable or private" ∧
    (∀ cause : String, get_transcript_result (.error (.genericError cause)) =
      .error ("Error fetching transcript: " ++ cause)) ∧
    (∀ e : ListError, ∃ msg : String, get_transcript_result (.error e) = .error msg) ∧
    ("Transcripts are disabled for this video" : String) ≠
      "No transcripts found for this video" ∧
    ("Transcripts are disabled for this video" : String) ≠
      "Video is unavailable or private" ∧
    ("No transcripts found for this video" : String) ≠
      "Video is unavailable or private" := by
  refine ⟨rfl, rfl, rfl, fun cause => rfl, ?_, by decide, by decide, by decide⟩
  intro e
  cases e with
  | transcriptsDisabled => exact ⟨_, rfl⟩
  | noTranscriptFound => exact ⟨_, rfl⟩
  | videoUnavailable => exact ⟨_, rfl⟩
  | genericError cause => exact ⟨_, rfl⟩

/-- C7: transcript text longer than `MAX_CHARS` is cut to exactly its first
`MAX_CHARS` characters and the warning flag is raised; text of at most
`MAX_CHARS` characters passes through unchanged with no warning. -/
theorem c7_truncation (text : String) :
    (MAX_CHARS < text.length →
      (truncateTranscript text).1.data = text.data.take MAX_CHARS ∧
      (truncateTranscript text).1.length = MAX_CHARS ∧
      (truncateTranscript text).2 = true) ∧
    (text.length ≤ MAX_CHARS → truncateTranscript text = (text, false)) := by
  constructor
  · intro h
    have hdl : text.length = text.data.length := rfl
    rw [hdl] at h
    unfold truncateTranscript
    rw [hdl, if_pos h]
    refine ⟨rfl, ?_, rfl⟩
    show (text.data.take MAX_CHARS).length = MAX_CHARS
    rw [List.length_take]
    omega
  · intro h
    unfold truncateTranscript
    rw [if_neg (Nat.not_lt.mpr h)]

/-- A 35,000-character transcript text, used as the C7 witness input. -/
def longText : String := ⟨List.replicate 35000 'w'⟩

/-- C7 witness: a 35,000-character text is cut to 30,000 with the flag set,
and a 2-character text passes through unflagged. -/
theorem c7_witness :
    (truncateTranscript longText).1.length = MAX_CHARS ∧
    (truncateTranscript longText).2 = true ∧
    truncateTranscript "hi" = ("hi", false) := by
  have hlong : MAX_CHARS < longText.length := by
    show MAX_CHARS < (List.replicate 35000 'w').length
    rw [List.length_replicate]
    decide
  have h := c7_truncation longText
  exact ⟨(h.1 hlong).2.1, (h.1 hlong).2.2, (c7_truncation "hi").2 (by decide)⟩

/-- C8: with empty user instructions the composed prompt carries the literal
marker "None" in the instructions slot, and in general the prompt is exactly
persona preamble, task header, the mode's template, instructions header, user
instructions (or "None"), language label, transcript text, and the closing
directive, in that order. -/
theorem c8_prompt_layout (summary_type : SummaryType) (user_query language text : String) :
    buildPrompt summary_type "" language text =
      personaPreamble ++ taskHeader ++ summary_instructions summary_type ++
        userInstrHeader ++ "None" ++ langHeaderL ++ language ++ langHeaderR ++
        text ++ closingDirective ∧
    buildPrompt summary_type user_query language text =
      personaPreamble ++ taskHeader ++ summary_instructions summary_type ++
        userInstrHeader ++ (if user_query = "" then "None" else user_query) ++
        langHeaderL ++ language ++ langHeaderR ++ text ++ closingDirective := by
  have e1 : ("You are an expert video content analyst. \n**Task:** " : String) =
      personaPreamble ++ taskHeader := by decide
  constructor <;>
    simp [buildPrompt, e1, userInstrHeader, langHeaderL, langHeaderR,
      closingDirective, String.append_assoc]

/-! § Helper lemmas about the extractor. -/

/-- A miss at the current start position moves the search right. -/
lemma searchWith_step (tryAt : List Char → Option (List Char)) (c : Char) (cs : List Char)
    (h : tryAt (c :: cs) = none) : searchWith tryAt (c :: cs) = searchWith tryAt cs := by
  simp only [searchWith, h]

/-- A match at the current start position is the search's result. -/
lemma searchWith_hit (tryAt : List Char → Option (List Char)) (cs g : List Char)
    (h : tryAt cs = some g) : searchWith tryAt cs = some g := by
  cases cs with
  | nil => exact h
  | cons c cs => simp only [searchWith, h]

/-- When the pattern misses at every start position, the search fails. -/
lemma searchWith_eq_none (tryAt : List Char → Option (List Char)) (cs : List Char)
    (h : ∀ suf ∈ cs.tails, tryAt suf = none) : searchWith tryAt cs = none := by
  induction cs with
  | nil => exact h [] (by simp)
  | cons c cs ih =>
    rw [searchWith_step _ _ _ (h (c :: cs) (by simp))]
    refine ih fun suf hs => h suf ?_
    rw [List.mem_tails] at hs ⊢
    exact hs.trans (List.suffix_cons c cs)

/-- Every group the search returns comes from the pattern matching at some
start position. -/
lemma searchWith_some (tryAt : List Char → Option (List Char)) (cs g : List Char)
    (h : searchWith tryAt cs = some g) : ∃ suf, tryAt suf = some g := by
  induction cs with
  | nil => exact ⟨[], h⟩
  | cons c cs ih =>
    cases ht : tryAt (c :: cs) with
    | some g' =>
      rw [searchWith_hit _ _ _ ht] at h
      cases h
      exact ⟨c :: cs, ht⟩
    | none =>
      rw [searchWith_step _ _ _ ht] at h
      exact ih h

/-- Whatever `grabId` returns is 11 characters long, all from the class. -/
lemma grabId_shape (cs g : List Char) (h : grabId cs = some g) :
    g.length = 11 ∧ g.all isIdChar = true := by
  unfold grabId at h
  split at h
  case isTrue hc =>
    cases h
    simp only [Bool.and_eq_true, decide_eq_true_eq] at hc
    exact ⟨by rw [List.length_take]; omega, hc.2⟩
  case isFalse => exact absurd h (by simp)

/-- Whatever pattern 1 captures is 11 characters long, all from the class. -/
lemma tryP1At_shape (cs g : List Char) (h : tryP1At cs = some g) :
    g.length = 11 ∧ g.all isIdChar = true := by
  unfold tryP1At at h
  split at h
  · exact grabId_shape _ _ h
  · exact grabId_shape _ _ h
  · exact absurd h (by simp)

/-- Whatever pattern 2 captures is 11 characters long, all from the class. -/
lemma tryP2At_shape (cs g : List Char) (h : tryP2At cs = some g) :
    g.length = 11 ∧ g.all isIdChar = true := by
  unfold tryP2At at h
  split at h
  · exact grabId_shape _ _ h
  · exact absurd h (by simp)

/-- Whatever pattern 3 captures is 11 characters long, all from the class. -/
lemma tryP3At_shape (cs g : List Char) (h : tryP3At cs = some g) :
    g.length = 11 ∧ g.all isIdChar = true := by
  unfold tryP3At at h
  split at h
  · exact grabId_shape _ _ h
  · exact absurd h (by simp)

/-- Whatever pattern 4 captures is 11 characters long, all from the class. -/
lemma tryP4At_shape (cs g : List Char) (h : tryP4At cs = some g) :
    g.length = 11 ∧ g.all isIdChar = true := by
  unfold tryP4At at h
  split at h
  · exact grabId_shape _ _ h
  · exact absurd h (by simp)

/-- A list of length 11 is an explicit 11-tuple of characters. -/
lemma exists_eleven_chars (l : List Char) (hl : l.length = 11) :
    ∃ a b c d e f g h i j k,
      l = [a, b, c, d, e, f, g, h, i, j, k] := by
  obtain ⟨a, l, rfl⟩ := List.exists_of_length_succ (n := 10) l (by omega)
  simp only [List.length_cons] at hl
  obtain ⟨b, l, rfl⟩ := List.exists_of_length_succ (n := 9) l (by omega)
  simp only [List.length_cons] at hl
  obtain ⟨c, l, rfl⟩ := List.exists_of_length_succ (n := 8) l (by omega)
  simp only [List.length_cons] at hl
  obtain ⟨d, l, rfl⟩ := List.exists_of_length_succ (n := 7) l (by omega)
  simp only [List.length_cons] at hl
  obtain ⟨e, l, rfl⟩ := List.exists_of_length_succ (n := 6) l (by omega)
  simp only [List.length_cons] at hl
  obtain ⟨f, l, rfl⟩ := List.exists_of_length_succ (n := 5) l (by omega)
  simp only [List.length_cons] at hl
  obtain ⟨g, l, rfl⟩ := List.exists_of_length_succ (n := 4) l (by omega)
  simp only [List.length_cons] at hl
  obtain ⟨h, l, rfl⟩ := List.exists_of_length_succ (n := 3) l (by omega)
  simp only [List.length_cons] at hl
  obtain ⟨i, l, rfl⟩ := List.exists_of_length_succ (n := 2) l (by omega)
  simp only [List.length_cons] at hl
  obtain ⟨j, l, rfl⟩ := List.exists_of_length_succ (n := 1) l (by omega)
  simp only [List.length_cons] at hl
  obtain ⟨k, l, rfl⟩ := List.exists_of_length_succ (n := 0) l (by omega)
  simp only [List.length_cons] at hl
  have hnil : l = [] := List.length_eq_zero.mp (by omega)
  subst hnil
  exact ⟨a, b, c, d, e, f, g, h, i, j, k, rfl⟩

/-- C6: each of the four accepted URL shapes carrying an 11-character
identifier from the class extracts exactly that identifier, and an input at
which no pattern matches at any start position extracts nothing. The function
is total by construction, so it never throws. -/
theorem c6_url_extraction (id url : List Char) (hlen : id.length = 11)
    (hchars : id.all isIdChar = true)
    (hno : ∀ suf ∈ url.tails,
      tryP1At suf = none ∧ tryP2At suf = none ∧ tryP3At suf = none ∧ tryP4At suf = none) :
    extract_video_id (longFormURL id) = some id ∧
    extract_video_id (embedURL id) = some id ∧
    extract_video_id (watchParamURL id) = some id ∧
    extract_video_id (shortLinkURL id) = some id ∧
    extract_video_id url = none := by
  obtain ⟨a, b, c, d, e, f, g, h, i, j, k, rfl⟩ := exists_eleven_chars id hlen
  simp only [List.all_cons, List.all_nil, Bool.and_eq_true, Bool.and_true] at hchars
  obtain ⟨h1, h2, h3, h4, h5, h6, h7, h8, h9, h10, h11⟩ := hchars
  have hgrab : grabId [a, b, c, d, e, f, g, h, i, j, k] =
      some [a, b, c, d, e, f, g, h, i, j, k] := by
    simp [grabId, h1, h2, h3, h4, h5, h6, h7, h8, h9, h10, h11]
  refine ⟨?_, ?_, ?_, ?_, ?_⟩
  · have hs : searchWith tryP1At (longFormURL [a, b, c, d, e, f, g, h, i, j, k]) =
        some [a, b, c, d, e, f, g, h, i, j, k] := by
      rw [longFormURL,
        show "https://www.youtube.com/watch?v=".data =
          ['h', 't', 't', 'p', 's', ':', '/', '/', 'w', 'w', 'w', '.', 'y', 'o', 'u', 't',
           'u', 'b', 'e', '.', 'c', 'o', 'm', '/', 'w', 'a', 't', 'c', 'h', '?', 'v', '=']
          from by decide]
      simp only [List.cons_append, List.nil_append]
      iterate 30 refine (searchWith_step _ _ _ rfl).trans ?_
      exact searchWith_hit _ _ _ hgrab
    unfold extract_video_id
    rw [hs]
  · have hs : searchWith tryP1At (embedURL [a, b, c, d, e, f, g, h, i, j, k]) =
        some [a, b, c, d, e, f, g, h, i, j, k] := by
      rw [embedURL,
        show "https://www.youtube.com/embed/".data =
          ['h', 't', 't', 'p', 's', ':', '/', '/', 'w', 'w', 'w', '.', 'y', 'o', 'u', 't',
           'u', 'b', 'e', '.', 'c', 'o', 'm', '/', 'e', 'm', 'b', 'e', 'd', '/']
          from by decide]
      simp only [List.cons_append, List.nil_append]
      iterate 29 refine (searchWith_step _ _ _ rfl).trans ?_
      exact searchWith_hit _ _ _ hgrab
    unfold extract_video_id
    rw [hs]
  · have hs : searchWith tryP1At (watchParamURL [a, b, c, d, e, f, g, h, i, j, k]) =
        some [a, b, c, d, e, f, g, h, i, j, k] := by
      rw [watchParamURL,
        show "www.youtube.com/watch?v=".data =
          ['w', 'w', 'w', '.', 'y', 'o', 'u', 't', 'u', 'b', 'e', '.', 'c', 'o', 'm', '/',
           'w', 'a', 't', 'c', 'h', '?', 'v', '=']
          from by decide]
      simp only [List.cons_append, List.nil_append]
      iterate 22 refine (searchWith_step _ _ _ rfl).trans ?_
      exact searchWith_hit _ _ _ hgrab
    unfold extract_video_id
    rw [hs]
  · have hs : searchWith tryP1At (shortLinkURL [a, b, c, d, e, f, g, h, i, j, k]) =
        some [a, b, c, d, e, f, g, h, i, j, k] := by
      rw [shortLinkURL,
        show "https://youtu.be/".data =
          ['h', 't', 't', 'p', 's', ':', '/', '/', 'y', 'o', 'u', 't', 'u', '.', 'b', 'e', '/']
          from by decide]
      simp only [List.cons_append, List.nil_append]
      iterate 16 refine (searchWith_step _ _ _ rfl).trans ?_
      exact searchWith_hit _ _ _ hgrab
    unfold extract_video_id
    rw [hs]
  · have n1 : searchWith tryP1At url = none :=
      searchWith_eq_none _ _ fun suf hs => (hno suf hs).1
    have n2 : searchWith tryP2At url = none :=
      searchWith_eq_none _ _ fun suf hs => (hno suf hs).2.1
    have n3 : searchWith tryP3At url = none :=
      searchWith_eq_none _ _ fun suf hs => (hno suf hs).2.2.1
    have n4 : searchWith tryP4At url = none :=
      searchWith_eq_none _ _ fun suf hs => (hno suf hs).2.2.2
    unfold extract_video_id
    rw [n1, n2, n3, n4]

/-- C6 witness: the identifier `dQw4w9WgXcQ` in all four shapes, and the
matchless input `hello world`. -/
theorem c6_witness :
    extract_video_id (longFormURL "dQw4w9WgXcQ".data) = some "dQw4w9WgXcQ".data ∧
    extract_video_id (embedURL "dQw4w9WgXcQ".data) = some "dQw4w9WgXcQ".data ∧
    extract_video_id (watchParamURL "dQw4w9WgXcQ".data) = some "dQw4w9WgXcQ".data ∧
    extract_video_id (shortLinkURL "dQw4w9WgXcQ".data) = some "dQw4w9WgXcQ".data ∧
    extract_video_id "hello world".data = none :=
  c6_url_extraction "dQw4w9WgXcQ".data "hello world".data (by decide) (by decide) (by decide)

/-- C10: every successful extraction is exactly 11 characters, all drawn from
ASCII letters, digits, hyphen and underscore — each pattern's capture group
enforces this shape. -/
theorem c10_result_shape (url g : List Char) (h : extract_video_id url = some g) :
    g.length = 11 ∧ g.all isIdChar = true := by
  unfold extract_video_id at h
  cases h1 : searchWith tryP1At url with
  | some g1 =>
    simp only [h1] at h
    cases h
    obtain ⟨suf, hs⟩ := searchWith_some tryP1At url _ h1
    exact tryP1At_shape _ _ hs
  | none =>
    simp only [h1] at h
    cases h2 : searchWith tryP2At url with
    | some g2 =>
      simp only [h2] at h
      cases h
      obtain ⟨suf, hs⟩ := searchWith_some tryP2At url _ h2
      exact tryP2At_shape _ _ hs
    | none =>
      simp only [h2] at h
      cases h3 : searchWith tryP3At url with
      | some g3 =>
        simp only [h3] at h
        cases h
        obtain ⟨suf, hs⟩ := searchWith_some tryP3At url _ h3
        exact tryP3At_shape _ _ hs
      | none =>
        simp only [h3] at h
        obtain ⟨suf, hs⟩ := searchWith_some tryP4At url g h
        exact tryP4At_shape _ _ hs

/-- C10 witness: the extraction of `dQw4w9WgXcQ` from a long-form link has
the required shape. -/
theorem c10_witness : "dQw4w9WgXcQ".data.length = 11 ∧
    "dQw4w9WgXcQ".data.all isIdChar = true :=
  c10_result_shape (longFormURL "dQw4w9WgXcQ".data) "dQw4w9WgXcQ".data (by decide)
